import Mathlib

/-!
# Verification of the halo2 Fibonacci circuit examples

This development embeds the two circuit definitions of the repository
(`src/example1.rs`, a "wide" three-advice-column layout, and
`src/example2.rs`, a "narrow" single-advice-column layout) together with
the PLONKish assignment/checking machinery they are run against.  The
circuit code (configure, assign_first_row, assign_row, synthesize, the
gate expressions and the main entry points) is translated directly from
the Rust source.  The surrounding machinery (region placement, cell
assignment, copy constraints, selector bookkeeping, gate evaluation and
the mock satisfiability checker) is library code not present in the
repository and is modelled from the specification's description of the
Region Assigner, Gate Evaluator and Satisfiability Checker.
-/

set_option maxRecDepth 4000
set_option linter.unusedVariables false

namespace FiboHalo2

/-- The modulus of the pasta `Fp` (Pallas base) field used by both `main`
functions: `0x40000000000000000000000000000000224698fc094cf91b992d30ed00000001`. -/
def pallasP : Nat :=
  28948022309329048855892746252171976963363056481941560715954676764349967630337

/-- The concrete field both `main` functions instantiate the circuits at. -/
abbrev Fp := ZMod pallasP

/-- `halo2`'s `Value<F>`: a witness value that is either unknown (not yet
computed) or a known field element. -/
inductive Value (F : Type) where
  | unknown : Value F
  | known : F → Value F
deriving DecidableEq, Repr

/-- Addition on `Value`: known values add in the field, anything involving
an unknown is unknown (the zip semantics of `halo2`'s `Value`). -/
def Value.add {F : Type} [Add F] : Value F → Value F → Value F
  | .known x, .known y => .known (x + y)
  | _, _ => .unknown

/-- Subtraction on `Value`, with the same unknown-propagating semantics. -/
def Value.sub {F : Type} [Sub F] : Value F → Value F → Value F
  | .known x, .known y => .known (x - y)
  | _, _ => .unknown

/-- Multiplication on `Value`, with the same unknown-propagating semantics. -/
def Value.mul {F : Type} [Mul F] : Value F → Value F → Value F
  | .known x, .known y => .known (x * y)
  | _, _ => .unknown

/-- A cell of the assignment table: an advice column index paired with an
absolute row. -/
structure Cell where
  col : Nat
  row : Nat
deriving DecidableEq, Repr

/-- Structural (fatal) synthesis errors, from the spec's error-handling
design. -/
inductive SynthError where
  | cellAlreadyAssigned
  | equalityNotEnabled
deriving DecidableEq, Repr

/-- The state accumulated while synthesizing a circuit: the assignment
table (as a write log), the rows at which each selector is enabled, the
recorded copy constraints, the instance (public-input) bindings, the
placed regions as (base row, height) pairs, and the next free absolute
row at which the floor planner will place the next region. -/
structure SynthState (F : Type) where
  assignments : List (Cell × Value F)
  selectors : List (Nat × Nat)
  copies : List (Cell × Cell)
  instanceBindings : List (Cell × Nat)
  regions : List (Nat × Nat)
  nextRow : Nat
deriving Repr

/-- The empty synthesis state. -/
def initState (F : Type) : SynthState F :=
  ⟨[], [], [], [], [], 0⟩

/-- The value stored at a cell, `unknown` when the cell was never written. -/
def SynthState.valueAt {F : Type} (st : SynthState F) (c : Cell) : Value F :=
  match st.assignments.find? (fun p => decide (p.1 = c)) with
  | some p => p.2
  | none => .unknown

/-- Modelled from the spec: the Region Assigner's `assign` operation
(`Region::assign_advice` in the source).  Writes a fresh value into an
absolute cell and fails with `CellAlreadyAssigned` if that cell was
already written, regardless of the value. -/
def assignAdvice {F : Type} (st : SynthState F) (c : Cell) (v : Value F) :
    Except SynthError (SynthState F) :=
  if st.assignments.any (fun p => decide (p.1 = c)) then
    .error .cellAlreadyAssigned
  else
    .ok { st with assignments := st.assignments ++ [(c, v)] }

/-- Modelled from the spec: the Region Assigner's `copy` operation
(`AssignedCell::copy_advice` in the source).  Requires both columns to be
equality-enabled, writes the source cell's value (propagating unknown)
into the destination cell, and records a copy constraint between the two
cells. -/
def copyAdvice {F : Type} (eqCols : List Nat) (st : SynthState F)
    (src dst : Cell) : Except SynthError (SynthState F) :=
  if src.col ∈ eqCols ∧ dst.col ∈ eqCols then
    match assignAdvice st dst (st.valueAt src) with
    | .ok st' => .ok { st' with copies := st'.copies ++ [(src, dst)] }
    | .error e => .error e
  else
    .error .equalityNotEnabled

/-- Modelled from the spec: `Selector::enable` marks a selector active at
an absolute row (selectors default to disabled everywhere). -/
def enableSelector {F : Type} (st : SynthState F) (s : Nat) (row : Nat) :
    SynthState F :=
  { st with selectors := st.selectors ++ [(s, row)] }

/-- Modelled from the spec: `Layouter::constrain_instance` records an
instance binding between a cell and a position in the public-input
sequence. -/
def exposePublicCell {F : Type} (st : SynthState F) (c : Cell) (idx : Nat) :
    SynthState F :=
  { st with instanceBindings := st.instanceBindings ++ [(c, idx)] }

/-- Gate expressions: queried-cell-at-rotation terms, selector-query
terms, and field operators, as in the spec's explicit expression-tree
representation of `create_gate` closures. -/
inductive Expr where
  | adviceQ (col : Nat) (rot : Nat)
  | selQ (s : Nat)
  | add (e1 e2 : Expr)
  | sub (e1 e2 : Expr)
  | mul (e1 e2 : Expr)
deriving DecidableEq, Repr

/-- Modelled from the spec: the Gate Evaluator's resolution of an
expression at a row against the assignment table.  A queried cell
resolves to the table value at (column, row + rotation); a selector
query resolves to 1 where active and 0 elsewhere; unknown values
propagate through the field operators. -/
def Expr.eval {F : Type} [Add F] [Sub F] [Mul F] [Zero F] [One F]
    (tbl : Cell → Value F) (selOn : Nat → Nat → Bool) (row : Nat) :
    Expr → Value F
  | .adviceQ col rot => tbl ⟨col, row + rot⟩
  | .selQ s => .known (if selOn s row then 1 else 0)
  | .add e1 e2 => Value.add (e1.eval tbl selOn row) (e2.eval tbl selOn row)
  | .sub e1 e2 => Value.sub (e1.eval tbl selOn row) (e2.eval tbl selOn row)
  | .mul e1 e2 => Value.mul (e1.eval tbl selOn row) (e2.eval tbl selOn row)

/-- Pure evaluation of an expression over an everywhere-defined table of
field values (any way of resolving every cell to a field element), used
to state value-independence facts about gates. -/
def Expr.evalF {F : Type} [Add F] [Sub F] [Mul F] [Zero F] [One F]
    (tbl : Cell → F) (selOn : Nat → Nat → Bool) (row : Nat) : Expr → F
  | .adviceQ col rot => tbl ⟨col, row + rot⟩
  | .selQ s => if selOn s row then 1 else 0
  | .add e1 e2 => e1.evalF tbl selOn row + e2.evalF tbl selOn row
  | .sub e1 e2 => e1.evalF tbl selOn row - e2.evalF tbl selOn row
  | .mul e1 e2 => e1.evalF tbl selOn row * e2.evalF tbl selOn row

/-- A gate: the selector gating it together with its polynomial identity. -/
structure Gate where
  sel : Nat
  expr : Expr
deriving DecidableEq, Repr

/-- The selector-activation function induced by a synthesis state. -/
def selOnOf {F : Type} (st : SynthState F) : Nat → Nat → Bool :=
  fun s row => decide ((s, row) ∈ st.selectors)

/-- The typed violations reported by the satisfiability checker, from the
spec's error-handling design. -/
inductive Violation where
  | ConstraintNotSatisfied (row : Nat) (gate : Nat)
  | UnresolvedWitness (row : Nat) (gate : Nat)
  | CopyConstraintViolated (src dst : Cell)
  | CopyUnresolved (src dst : Cell)
  | InstanceMismatch (idx : Nat)
  | InstanceUnresolved (idx : Nat)
  | InstanceIndexOutOfRange (idx : Nat)
deriving DecidableEq, Repr

/-- Modelled from the spec: check one gate at one active row.  If some
queried value is unknown the row is reported as an open witness; else the
gate holds iff the evaluated expression is the field's zero. -/
def checkRow {F : Type} [Add F] [Sub F] [Mul F] [Zero F] [One F]
    [DecidableEq F] (st : SynthState F) (i : Nat) (g : Gate) (r : Nat) :
    Option Violation :=
  match g.expr.eval st.valueAt (selOnOf st) r with
  | .unknown => some (.UnresolvedWitness r i)
  | .known v => if v = 0 then none else some (.ConstraintNotSatisfied r i)

/-- Modelled from the spec: the Gate Evaluator evaluates every gate at
every row where that gate's selector is active. -/
def gateViolations {F : Type} [Add F] [Sub F] [Mul F] [Zero F] [One F]
    [DecidableEq F] (gates : List Gate) (st : SynthState F) :
    List Violation :=
  (gates.enum.map (fun ig =>
    ((st.selectors.filter (fun p => decide (p.1 = ig.2.sel))).map
        Prod.snd).filterMap
      (checkRow st ig.1 ig.2))).flatten

/-- Modelled from the spec: every recorded copy constraint requires both
cells' resolved values to be equal; unresolved values are a distinct
diagnostic, not a silent pass. -/
def copyViolations {F : Type} [DecidableEq F] (st : SynthState F) :
    List Violation :=
  st.copies.filterMap (fun p =>
    match st.valueAt p.1, st.valueAt p.2 with
    | .known x, .known y =>
      if x = y then none else some (.CopyConstraintViolated p.1 p.2)
    | _, _ => some (.CopyUnresolved p.1 p.2))

/-- Modelled from the spec: every instance binding requires the cell's
resolved value to equal the public-input sequence's element at the bound
index, failing with `InstanceMismatch` when they differ and
`InstanceIndexOutOfRange` when the sequence is too short. -/
def instanceViolations {F : Type} [DecidableEq F] (st : SynthState F)
    (pub : List F) : List Violation :=
  st.instanceBindings.filterMap (fun p =>
    match pub[p.2]? with
    | none => some (.InstanceIndexOutOfRange p.2)
    | some x =>
      match st.valueAt p.1 with
      | .known v => if v = x then none else some (.InstanceMismatch p.2)
      | .unknown => some (.InstanceUnresolved p.2))

/-- The verdict of the mock prover: satisfied, violated with the collected
list of typed violations, a synthesis failure, or a row domain that is too
small for the rows the circuit uses. -/
inductive MockResult where
  | Satisfied
  | Violated (vs : List Violation)
  | SynthFailure (e : SynthError)
  | RowDomainTooSmall
deriving DecidableEq, Repr

/-- Modelled from the spec: the Satisfiability Checker collects, in order,
gate violations, copy-constraint violations and instance-binding
violations, and is satisfied exactly when no violation was found. -/
def runChecker {F : Type} [Add F] [Sub F] [Mul F] [Zero F] [One F]
    [DecidableEq F] (gates : List Gate) (st : SynthState F)
    (pub : List F) : MockResult :=
  let vs := gateViolations gates st ++ copyViolations st ++
    instanceViolations st pub
  if vs = [] then .Satisfied else .Violated vs

/-- The circuit structure of both example files: the two seed witness
values (`FiboCircuit { a, b }` in the source); these are the only
instantiation inputs. -/
structure FiboCircuit (F : Type) where
  a : Value F
  b : Value F

/-- `Circuit::without_witnesses` from both example files: the default
circuit, whose seed values are both unknown. -/
def FiboCircuit.withoutWitnesses {F : Type} (_c : FiboCircuit F) :
    FiboCircuit F :=
  ⟨.unknown, .unknown⟩

/-- The advice columns of the wide layout (example1): columns a, b, c. -/
def eqCols1 : List Nat := [0, 1, 2]

/-- The single advice column of the narrow layout (example2). -/
def eqCols2 : List Nat := [0]

/-- The "fibonacci" gate of example1's `configure`:
`s * (a + b - c)` with all three columns queried at `Rotation::cur()`. -/
def gate1 : Gate :=
  ⟨0, .mul (.selQ 0)
    (.sub (.add (.adviceQ 0 0) (.adviceQ 1 0)) (.adviceQ 2 0))⟩

/-- The "fibonacci" gate of example2's `configure`:
`s * (a + b - c)` with the single column queried at rotations 0, 1, 2. -/
def gate2 : Gate :=
  ⟨0, .mul (.selQ 0)
    (.sub (.add (.adviceQ 0 0) (.adviceQ 0 1)) (.adviceQ 0 2))⟩

/-- example1's `assign_first_row`: one region of height 1, selector
enabled at its row, with a, b, c = a + b assigned to the three advice
columns at relative row 0.  Returns the three created cells. -/
def assignFirstRow1 {F : Type} [Add F] (a b : Value F) (st : SynthState F) :
    Except SynthError (SynthState F × Cell × Cell × Cell) := do
  let base := st.nextRow
  let st := enableSelector st 0 base
  let st ← assignAdvice st ⟨0, base⟩ a
  let st ← assignAdvice st ⟨1, base⟩ b
  let st ← assignAdvice st ⟨2, base⟩ (Value.add a b)
  .ok ({ st with regions := st.regions ++ [(base, 1)], nextRow := base + 1 },
    ⟨0, base⟩, ⟨1, base⟩, ⟨2, base⟩)

/-- example1's `assign_row`: one region of height 1, selector enabled at
its row; the previous row's b and c cells are copy-assigned into the new
row's a and b columns, and the c column receives their sum.  Returns the
new b and c cells. -/
def assignRow1 {F : Type} [Add F] (prevB prevC : Cell) (st : SynthState F) :
    Except SynthError (SynthState F × Cell × Cell) := do
  let base := st.nextRow
  let st := enableSelector st 0 base
  let st ← copyAdvice eqCols1 st prevB ⟨0, base⟩
  let st ← copyAdvice eqCols1 st prevC ⟨1, base⟩
  let st ← assignAdvice st ⟨2, base⟩
    (Value.add (st.valueAt prevB) (st.valueAt prevC))
  .ok ({ st with regions := st.regions ++ [(base, 1)], nextRow := base + 1 },
    ⟨1, base⟩, ⟨2, base⟩)

/-- The `for _ in 3..10` loop body of both `synthesize` functions,
iterated a fixed number of times: each iteration assigns a next row from
the previous b and c cells and threads the returned cells forward. -/
def synthLoop {F : Type}
    (step : Cell → Cell → SynthState F →
      Except SynthError (SynthState F × Cell × Cell)) :
    Nat → Cell → Cell → SynthState F →
      Except SynthError (SynthState F × Cell × Cell)
  | 0, prevB, prevC, st => .ok (st, prevB, prevC)
  | n + 1, prevB, prevC, st => do
    let (st, b, c) ← step prevB prevC st
    synthLoop step n b c st

/-- example1's `synthesize`: assign the first row from the seeds, iterate
`assign_row` for `3..10` (seven times), and expose the final c cell as
public output at instance index 0. -/
def synthesize1 {F : Type} [Add F] (a b : Value F) :
    Except SynthError (SynthState F) := do
  let (st, _, prevB, prevC) ← assignFirstRow1 a b (initState F)
  let (st, _, prevC) ← synthLoop assignRow1 7 prevB prevC st
  .ok (exposePublicCell st prevC 0)

/-- example2's `assign_first_row`: one region of height 3 in the single
advice column, selector enabled at the region's first row, with a, b,
c = a + b at relative rows 0, 1, 2. -/
def assignFirstRow2 {F : Type} [Add F] (a b : Value F) (st : SynthState F) :
    Except SynthError (SynthState F × Cell × Cell × Cell) := do
  let base := st.nextRow
  let st := enableSelector st 0 base
  let st ← assignAdvice st ⟨0, base⟩ a
  let st ← assignAdvice st ⟨0, base + 1⟩ b
  let st ← assignAdvice st ⟨0, base + 2⟩ (Value.add a b)
  .ok ({ st with regions := st.regions ++ [(base, 3)], nextRow := base + 3 },
    ⟨0, base⟩, ⟨0, base + 1⟩, ⟨0, base + 2⟩)

/-- example2's `assign_row`: one region of height 3, selector enabled at
the region's first row; the previous b and c cells are copy-assigned into
relative rows 0 and 1 and their sum is assigned at relative row 2. -/
def assignRow2 {F : Type} [Add F] (prevB prevC : Cell) (st : SynthState F) :
    Except SynthError (SynthState F × Cell × Cell) := do
  let base := st.nextRow
  let st := enableSelector st 0 base
  let st ← copyAdvice eqCols2 st prevB ⟨0, base⟩
  let st ← copyAdvice eqCols2 st prevC ⟨0, base + 1⟩
  let st ← assignAdvice st ⟨0, base + 2⟩
    (Value.add (st.valueAt prevB) (st.valueAt prevC))
  .ok ({ st with regions := st.regions ++ [(base, 3)], nextRow := base + 3 },
    ⟨0, base + 1⟩, ⟨0, base + 2⟩)

/-- example2's `synthesize`: identical control flow to example1's, over
the narrow layout's region shape. -/
def synthesize2 {F : Type} [Add F] (a b : Value F) :
    Except SynthError (SynthState F) := do
  let (st, _, prevB, prevC) ← assignFirstRow2 a b (initState F)
  let (st, _, prevC) ← synthLoop assignRow2 7 prevB prevC st
  .ok (exposePublicCell st prevC 0)

/-- Extract the synthesized state from a synthesis run, defaulting to the
empty state on a synthesis error. -/
def synthStateOf {F : Type} (r : Except SynthError (SynthState F)) :
    SynthState F :=
  match r with
  | .ok st => st
  | .error _ => initState F

/-- Modelled from the spec: `MockProver::run` with domain size `2^k`
requires the row domain to hold every row the circuit uses, then runs the
satisfiability checker on the synthesized assignment against the supplied
public-input sequence. -/
def mockRun {F : Type} [Add F] [Sub F] [Mul F] [Zero F] [One F]
    [DecidableEq F] (gates : List Gate)
    (synth : Except SynthError (SynthState F)) (k : Nat) (pub : List F) :
    MockResult :=
  match synth with
  | .error e => .SynthFailure e
  | .ok st =>
    if st.nextRow ≤ 2 ^ k then runChecker gates st pub
    else .RowDomainTooSmall

/-- example1's `main` run: the wide circuit with seed values a, b at
domain parameter `k = 4`. -/
def mockRun1 {F : Type} [Add F] [Sub F] [Mul F] [Zero F] [One F]
    [DecidableEq F] (a b : Value F) (pub : List F) : MockResult :=
  mockRun [gate1] (synthesize1 a b) 4 pub

/-- example2's `main` run: the narrow circuit with seed values a, b at
domain parameter `k = 5`. -/
def mockRun2 {F : Type} [Add F] [Sub F] [Mul F] [Zero F] [One F]
    [DecidableEq F] (a b : Value F) (pub : List F) : MockResult :=
  mockRun [gate2] (synthesize2 a b) 5 pub

/-- The value held by the cell exposed as the circuit's public output
(the cell of the first recorded instance binding). -/
def exposedValue {F : Type} (st : SynthState F) : Value F :=
  match st.instanceBindings.head? with
  | some p => st.valueAt p.1
  | none => .unknown

/-- The witness-independent structure of a synthesis state: which cells
are assigned, the enabled selector rows, the copy constraints, the
instance bindings and the placed regions. -/
def SynthState.shape {F : Type} (st : SynthState F) :
    List Cell × List (Nat × Nat) × List (Cell × Cell) ×
      List (Cell × Nat) × List (Nat × Nat) :=
  (st.assignments.map Prod.fst, st.selectors, st.copies,
    st.instanceBindings, st.regions)

/-- The first Fibonacci term over seeds a, b. -/
def f0 {F : Type} (a b : F) : F := a

/-- The second Fibonacci term over seeds a, b. -/
def f1 {F : Type} (a b : F) : F := b

/-- The third Fibonacci term over seeds a, b. -/
def f2 {F : Type} [Add F] (a b : F) : F := f0 a b + f1 a b

/-- The fourth Fibonacci term over seeds a, b. -/
def f3 {F : Type} [Add F] (a b : F) : F := f1 a b + f2 a b

/-- The fifth Fibonacci term over seeds a, b. -/
def f4 {F : Type} [Add F] (a b : F) : F := f2 a b + f3 a b

/-- The sixth Fibonacci term over seeds a, b. -/
def f5 {F : Type} [Add F] (a b : F) : F := f3 a b + f4 a b

/-- The seventh Fibonacci term over seeds a, b. -/
def f6 {F : Type} [Add F] (a b : F) : F := f4 a b + f5 a b

/-- The eighth Fibonacci term over seeds a, b. -/
def f7 {F : Type} [Add F] (a b : F) : F := f5 a b + f6 a b

/-- The ninth Fibonacci term over seeds a, b. -/
def f8 {F : Type} [Add F] (a b : F) : F := f6 a b + f7 a b

/-- The tenth Fibonacci term over seeds a, b. -/
def f9 {F : Type} [Add F] (a b : F) : F := f7 a b + f8 a b

/-- Fibonacci terms at the `Value` level over arbitrary seed witnesses:
term 0 is the first seed. -/
def g0 {F : Type} (a b : Value F) : Value F := a

/-- Fibonacci term 1 at the `Value` level: the second seed. -/
def g1 {F : Type} (a b : Value F) : Value F := b

/-- Fibonacci term 2 at the `Value` level: the sum of terms 0 and 1. -/
def g2 {F : Type} [Add F] (a b : Value F) : Value F :=
  Value.add (g0 a b) (g1 a b)

/-- Fibonacci term 3 at the `Value` level: the sum of terms 1 and 2. -/
def g3 {F : Type} [Add F] (a b : Value F) : Value F :=
  Value.add (g1 a b) (g2 a b)

/-- Fibonacci term 4 at the `Value` level: the sum of terms 2 and 3. -/
def g4 {F : Type} [Add F] (a b : Value F) : Value F :=
  Value.add (g2 a b) (g3 a b)

/-- Fibonacci term 5 at the `Value` level: the sum of terms 3 and 4. -/
def g5 {F : Type} [Add F] (a b : Value F) : Value F :=
  Value.add (g3 a b) (g4 a b)

/-- Fibonacci term 6 at the `Value` level: the sum of terms 4 and 5. -/
def g6 {F : Type} [Add F] (a b : Value F) : Value F :=
  Value.add (g4 a b) (g5 a b)

/-- Fibonacci term 7 at the `Value` level: the sum of terms 5 and 6. -/
def g7 {F : Type} [Add F] (a b : Value F) : Value F :=
  Value.add (g5 a b) (g6 a b)

/-- Fibonacci term 8 at the `Value` level: the sum of terms 6 and 7. -/
def g8 {F : Type} [Add F] (a b : Value F) : Value F :=
  Value.add (g6 a b) (g7 a b)

/-- Fibonacci term 9 at the `Value` level: the sum of terms 7 and 8. -/
def g9 {F : Type} [Add F] (a b : Value F) : Value F :=
  Value.add (g7 a b) (g8 a b)

/-- The wide circuit's synthesis state after 1 region. -/
def wideAfter1 {F : Type} [Add F] (a b : Value F) : SynthState F where
  assignments :=
    [(⟨0, 0⟩, (g0 a b)),
     (⟨1, 0⟩, (g1 a b)),
     (⟨2, 0⟩, (g2 a b))]
  selectors := [(0, 0)]
  copies := []
  instanceBindings := []
  regions := [(0, 1)]
  nextRow := 1

/-- The wide circuit's synthesis state after 2 regions. -/
def wideAfter2 {F : Type} [Add F] (a b : Value F) : SynthState F where
  assignments :=
    [(⟨0, 0⟩, (g0 a b)),
     (⟨1, 0⟩, (g1 a b)),
     (⟨2, 0⟩, (g2 a b)),
     (⟨0, 1⟩, (g1 a b)),
     (⟨1, 1⟩, (g2 a b)),
     (⟨2, 1⟩, (g3 a b))]
  selectors := [(0, 0), (0, 1)]
  copies :=
    [(⟨1, 0⟩, ⟨0, 1⟩),
     (⟨2, 0⟩, ⟨1, 1⟩)]
  instanceBindings := []
  regions := [(0, 1), (1, 1)]
  nextRow := 2

/-- The wide circuit's synthesis state after 3 regions. -/
def wideAfter3 {F : Type} [Add F] (a b : Value F) : SynthState F where
  assignments :=
    [(⟨0, 0⟩, (g0 a b)),
     (⟨1, 0⟩, (g1 a b)),
     (⟨2, 0⟩, (g2 a b)),
     (⟨0, 1⟩, (g1 a b)),
     (⟨1, 1⟩, (g2 a b)),
     (⟨2, 1⟩, (g3 a b)),
     (⟨0, 2⟩, (g2 a b)),
     (⟨1, 2⟩, (g3 a b)),
     (⟨2, 2⟩, (g4 a b))]
  selectors := [(0, 0), (0, 1), (0, 2)]
  copies :=
    [(⟨1, 0⟩, ⟨0, 1⟩),
     (⟨2, 0⟩, ⟨1, 1⟩),
     (⟨1, 1⟩, ⟨0, 2⟩),
     (⟨2, 1⟩, ⟨1, 2⟩)]
  instanceBindings := []
  regions := [(0, 1), (1, 1), (2, 1)]
  nextRow := 3

/-- The wide circuit's synthesis state after 4 regions. -/
def wideAfter4 {F : Type} [Add F] (a b : Value F) : SynthState F where
  assignments :=
    [(⟨0, 0⟩, (g0 a b)),
     (⟨1, 0⟩, (g1 a b)),
     (⟨2, 0⟩, (g2 a b)),
     (⟨0, 1⟩, (g1 a b)),
     (⟨1, 1⟩, (g2 a b)),
     (⟨2, 1⟩, (g3 a b)),
     (⟨0, 2⟩, (g2 a b)),
     (⟨1, 2⟩, (g3 a b)),
     (⟨2, 2⟩, (g4 a b)),
     (⟨0, 3⟩, (g3 a b)),
     (⟨1, 3⟩, (g4 a b)),
     (⟨2, 3⟩, (g5 a b))]
  selectors := [(0, 0), (0, 1), (0, 2), (0, 3)]
  copies :=
    [(⟨1, 0⟩, ⟨0, 1⟩),
     (⟨2, 0⟩, ⟨1, 1⟩),
     (⟨1, 1⟩, ⟨0, 2⟩),
     (⟨2, 1⟩, ⟨1, 2⟩),
     (⟨1, 2⟩, ⟨0, 3⟩),
     (⟨2, 2⟩, ⟨1, 3⟩)]
  instanceBindings := []
  regions := [(0, 1), (1, 1), (2, 1), (3, 1)]
  nextRow := 4

/-- The wide circuit's synthesis state after 5 regions. -/
def wideAfter5 {F : Type} [Add F] (a b : Value F) : SynthState F where
  assignments :=
    [(⟨0, 0⟩, (g0 a b)),
     (⟨1, 0⟩, (g1 a b)),
     (⟨2, 0⟩, (g2 a b)),
     (⟨0, 1⟩, (g1 a b)),
     (⟨1, 1⟩, (g2 a b)),
     (⟨2, 1⟩, (g3 a b)),
     (⟨0, 2⟩, (g2 a b)),
     (⟨1, 2⟩, (g3 a b)),
     (⟨2, 2⟩, (g4 a b)),
     (⟨0, 3⟩, (g3 a b)),
     (⟨1, 3⟩, (g4 a b)),
     (⟨2, 3⟩, (g5 a b)),
     (⟨0, 4⟩, (g4 a b)),
     (⟨1, 4⟩, (g5 a b)),
     (⟨2, 4⟩, (g6 a b))]
  selectors := [(0, 0), (0, 1), (0, 2), (0, 3), (0, 4)]
  copies :=
    [(⟨1, 0⟩, ⟨0, 1⟩),
     (⟨2, 0⟩, ⟨1, 1⟩),
     (⟨1, 1⟩, ⟨0, 2⟩),
     (⟨2, 1⟩, ⟨1, 2⟩),
     (⟨1, 2⟩, ⟨0, 3⟩),
     (⟨2, 2⟩, ⟨1, 3⟩),
     (⟨1, 3⟩, ⟨0, 4⟩),
     (⟨2, 3⟩, ⟨1, 4⟩)]
  instanceBindings := []
  regions := [(0, 1), (1, 1), (2, 1), (3, 1), (4, 1)]
  nextRow := 5

/-- The wide circuit's synthesis state after 6 regions. -/
def wideAfter6 {F : Type} [Add F] (a b : Value F) : SynthState F where
  assignments :=
    [(⟨0, 0⟩, (g0 a b)),
     (⟨1, 0⟩, (g1 a b)),
     (⟨2, 0⟩, (g2 a b)),
     (⟨0, 1⟩, (g1 a b)),
     (⟨1, 1⟩, (g2 a b)),
     (⟨2, 1⟩, (g3 a b)),
     (⟨0, 2⟩, (g2 a b)),
     (⟨1, 2⟩, (g3 a b)),
     (⟨2, 2⟩, (g4 a b)),
     (⟨0, 3⟩, (g3 a b)),
     (⟨1, 3⟩, (g4 a b)),
     (⟨2, 3⟩, (g5 a b)),
     (⟨0, 4⟩, (g4 a b)),
     (⟨1, 4⟩, (g5 a b)),
     (⟨2, 4⟩, (g6 a b)),
     (⟨0, 5⟩, (g5 a b)),
     (⟨1, 5⟩, (g6 a b)),
     (⟨2, 5⟩, (g7 a b))]
  selectors := [(0, 0), (0, 1), (0, 2), (0, 3), (0, 4), (0, 5)]
  copies :=
    [(⟨1, 0⟩, ⟨0, 1⟩),
     (⟨2, 0⟩, ⟨1, 1⟩),
     (⟨1, 1⟩, ⟨0, 2⟩),
     (⟨2, 1⟩, ⟨1, 2⟩),
     (⟨1, 2⟩, ⟨0, 3⟩),
     (⟨2, 2⟩, ⟨1, 3⟩),
     (⟨1, 3⟩, ⟨0, 4⟩),
     (⟨2, 3⟩, ⟨1, 4⟩),
     (⟨1, 4⟩, ⟨0, 5⟩),
     (⟨2, 4⟩, ⟨1, 5⟩)]
  instanceBindings := []
  regions := [(0, 1), (1, 1), (2, 1), (3, 1), (4, 1), (5, 1)]
  nextRow := 6

/-- The wide circuit's synthesis state after 7 regions. -/
def wideAfter7 {F : Type} [Add F] (a b : Value F) : SynthState F where
  assignments :=
    [(⟨0, 0⟩, (g0 a b)),
     (⟨1, 0⟩, (g1 a b)),
     (⟨2, 0⟩, (g2 a b)),
     (⟨0, 1⟩, (g1 a b)),
     (⟨1, 1⟩, (g2 a b)),
     (⟨2, 1⟩, (g3 a b)),
     (⟨0, 2⟩, (g2 a b)),
     (⟨1, 2⟩, (g3 a b)),
     (⟨2, 2⟩, (g4 a b)),
     (⟨0, 3⟩, (g3 a b)),
     (⟨1, 3⟩, (g4 a b)),
     (⟨2, 3⟩, (g5 a b)),
     (⟨0, 4⟩, (g4 a b)),
     (⟨1, 4⟩, (g5 a b)),
     (⟨2, 4⟩, (g6 a b)),
     (⟨0, 5⟩, (g5 a b)),
     (⟨1, 5⟩, (g6 a b)),
     (⟨2, 5⟩, (g7 a b)),
     (⟨0, 6⟩, (g6 a b)),
     (⟨1, 6⟩, (g7 a b)),
     (⟨2, 6⟩, (g8 a b))]
  selectors := [(0, 0), (0, 1), (0, 2), (0, 3), (0, 4), (0, 5), (0, 6)]
  copies :=
    [(⟨1, 0⟩, ⟨0, 1⟩),
     (⟨2, 0⟩, ⟨1, 1⟩),
     (⟨1, 1⟩, ⟨0, 2⟩),
     (⟨2, 1⟩, ⟨1, 2⟩),
     (⟨1, 2⟩, ⟨0, 3⟩),
     (⟨2, 2⟩, ⟨1, 3⟩),
     (⟨1, 3⟩, ⟨0, 4⟩),
     (⟨2, 3⟩, ⟨1, 4⟩),
     (⟨1, 4⟩, ⟨0, 5⟩),
     (⟨2, 4⟩, ⟨1, 5⟩),
     (⟨1, 5⟩, ⟨0, 6⟩),
     (⟨2, 5⟩, ⟨1, 6⟩)]
  instanceBindings := []
  regions := [(0, 1), (1, 1), (2, 1), (3, 1), (4, 1), (5, 1), (6, 1)]
  nextRow := 7

/-- The wide circuit's synthesis state after 8 regions. -/
def wideAfter8 {F : Type} [Add F] (a b : Value F) : SynthState F where
  assignments :=
    [(⟨0, 0⟩, (g0 a b)),
     (⟨1, 0⟩, (g1 a b)),
     (⟨2, 0⟩, (g2 a b)),
     (⟨0, 1⟩, (g1 a b)),
     (⟨1, 1⟩, (g2 a b)),
     (⟨2, 1⟩, (g3 a b)),
     (⟨0, 2⟩, (g2 a b)),
     (⟨1, 2⟩, (g3 a b)),
     (⟨2, 2⟩, (g4 a b)),
     (⟨0, 3⟩, (g3 a b)),
     (⟨1, 3⟩, (g4 a b)),
     (⟨2, 3⟩, (g5 a b)),
     (⟨0, 4⟩, (g4 a b)),
     (⟨1, 4⟩, (g5 a b)),
     (⟨2, 4⟩, (g6 a b)),
     (⟨0, 5⟩, (g5 a b)),
     (⟨1, 5⟩, (g6 a b)),
     (⟨2, 5⟩, (g7 a b)),
     (⟨0, 6⟩, (g6 a b)),
     (⟨1, 6⟩, (g7 a b)),
     (⟨2, 6⟩, (g8 a b)),
     (⟨0, 7⟩, (g7 a b)),
     (⟨1, 7⟩, (g8 a b)),
     (⟨2, 7⟩, (g9 a b))]
  selectors := [(0, 0), (0, 1), (0, 2), (0, 3), (0, 4), (0, 5), (0, 6), (0, 7)]
  copies :=
    [(⟨1, 0⟩, ⟨0, 1⟩),
     (⟨2, 0⟩, ⟨1, 1⟩),
     (⟨1, 1⟩, ⟨0, 2⟩),
     (⟨2, 1⟩, ⟨1, 2⟩),
     (⟨1, 2⟩, ⟨0, 3⟩),
     (⟨2, 2⟩, ⟨1, 3⟩),
     (⟨1, 3⟩, ⟨0, 4⟩),
     (⟨2, 3⟩, ⟨1, 4⟩),
     (⟨1, 4⟩, ⟨0, 5⟩),
     (⟨2, 4⟩, ⟨1, 5⟩),
     (⟨1, 5⟩, ⟨0, 6⟩),
     (⟨2, 5⟩, ⟨1, 6⟩),
     (⟨1, 6⟩, ⟨0, 7⟩),
     (⟨2, 6⟩, ⟨1, 7⟩)]
  instanceBindings := []
  regions := [(0, 1), (1, 1), (2, 1), (3, 1), (4, 1), (5, 1), (6, 1), (7, 1)]
  nextRow := 8

/-- The narrow circuit's synthesis state after 1 region. -/
def narrowAfter1 {F : Type} [Add F] (a b : Value F) : SynthState F where
  assignments :=
    [(⟨0, 0⟩, (g0 a b)),
     (⟨0, 1⟩, (g1 a b)),
     (⟨0, 2⟩, (g2 a b))]
  selectors := [(0, 0)]
  copies := []
  instanceBindings := []
  regions := [(0, 3)]
  nextRow := 3

/-- The narrow circuit's synthesis state after 2 regions. -/
def narrowAfter2 {F : Type} [Add F] (a b : Value F) : SynthState F where
  assignments :=
    [(⟨0, 0⟩, (g0 a b)),
     (⟨0, 1⟩, (g1 a b)),
     (⟨0, 2⟩, (g2 a b)),
     (⟨0, 3⟩, (g1 a b)),
     (⟨0, 4⟩, (g2 a b)),
     (⟨0, 5⟩, (g3 a b))]
  selectors := [(0, 0), (0, 3)]
  copies :=
    [(⟨0, 1⟩, ⟨0, 3⟩),
     (⟨0, 2⟩, ⟨0, 4⟩)]
  instanceBindings := []
  regions := [(0, 3), (3, 3)]
  nextRow := 6

/-- The narrow circuit's synthesis state after 3 regions. -/
def narrowAfter3 {F : Type} [Add F] (a b : Value F) : SynthState F where
  assignments :=
    [(⟨0, 0⟩, (g0 a b)),
     (⟨0, 1⟩, (g1 a b)),
     (⟨0, 2⟩, (g2 a b)),
     (⟨0, 3⟩, (g1 a b)),
     (⟨0, 4⟩, (g2 a b)),
     (⟨0, 5⟩, (g3 a b)),
     (⟨0, 6⟩, (g2 a b)),
     (⟨0, 7⟩, (g3 a b)),
     (⟨0, 8⟩, (g4 a b))]
  selectors := [(0, 0), (0, 3), (0, 6)]
  copies :=
    [(⟨0, 1⟩, ⟨0, 3⟩),
     (⟨0, 2⟩, ⟨0, 4⟩),
     (⟨0, 4⟩, ⟨0, 6⟩),
     (⟨0, 5⟩, ⟨0, 7⟩)]
  instanceBindings := []
  regions := [(0, 3), (3, 3), (6, 3)]
  nextRow := 9

/-- The narrow circuit's synthesis state after 4 regions. -/
def narrowAfter4 {F : Type} [Add F] (a b : Value F) : SynthState F where
  assignments :=
    [(⟨0, 0⟩, (g0 a b)),
     (⟨0, 1⟩, (g1 a b)),
     (⟨0, 2⟩, (g2 a b)),
     (⟨0, 3⟩, (g1 a b)),
     (⟨0, 4⟩, (g2 a b)),
     (⟨0, 5⟩, (g3 a b)),
     (⟨0, 6⟩, (g2 a b)),
     (⟨0, 7⟩, (g3 a b)),
     (⟨0, 8⟩, (g4 a b)),
     (⟨0, 9⟩, (g3 a b)),
     (⟨0, 10⟩, (g4 a b)),
     (⟨0, 11⟩, (g5 a b))]
  selectors := [(0, 0), (0, 3), (0, 6), (0, 9)]
  copies :=
    [(⟨0, 1⟩, ⟨0, 3⟩),
     (⟨0, 2⟩, ⟨0, 4⟩),
     (⟨0, 4⟩, ⟨0, 6⟩),
     (⟨0, 5⟩, ⟨0, 7⟩),
     (⟨0, 7⟩, ⟨0, 9⟩),
     (⟨0, 8⟩, ⟨0, 10⟩)]
  instanceBindings := []
  regions := [(0, 3), (3, 3), (6, 3), (9, 3)]
  nextRow := 12

/-- The narrow circuit's synthesis state after 5 regions. -/
def narrowAfter5 {F : Type} [Add F] (a b : Value F) : SynthState F where
  assignments :=
    [(⟨0, 0⟩, (g0 a b)),
     (⟨0, 1⟩, (g1 a b)),
     (⟨0, 2⟩, (g2 a b)),
     (⟨0, 3⟩, (g1 a b)),
     (⟨0, 4⟩, (g2 a b)),
     (⟨0, 5⟩, (g3 a b)),
     (⟨0, 6⟩, (g2 a b)),
     (⟨0, 7⟩, (g3 a b)),
     (⟨0, 8⟩, (g4 a b)),
     (⟨0, 9⟩, (g3 a b)),
     (⟨0, 10⟩, (g4 a b)),
     (⟨0, 11⟩, (g5 a b)),
     (⟨0, 12⟩, (g4 a b)),
     (⟨0, 13⟩, (g5 a b)),
     (⟨0, 14⟩, (g6 a b))]
  selectors := [(0, 0), (0, 3), (0, 6), (0, 9), (0, 12)]
  copies :=
    [(⟨0, 1⟩, ⟨0, 3⟩),
     (⟨0, 2⟩, ⟨0, 4⟩),
     (⟨0, 4⟩, ⟨0, 6⟩),
     (⟨0, 5⟩, ⟨0, 7⟩),
     (⟨0, 7⟩, ⟨0, 9⟩),
     (⟨0, 8⟩, ⟨0, 10⟩),
     (⟨0, 10⟩, ⟨0, 12⟩),
     (⟨0, 11⟩, ⟨0, 13⟩)]
  instanceBindings := []
  regions := [(0, 3), (3, 3), (6, 3), (9, 3), (12, 3)]
  nextRow := 15

/-- The narrow circuit's synthesis state after 6 regions. -/
def narrowAfter6 {F : Type} [Add F] (a b : Value F) : SynthState F where
  assignments :=
    [(⟨0, 0⟩, (g0 a b)),
     (⟨0, 1⟩, (g1 a b)),
     (⟨0, 2⟩, (g2 a b)),
     (⟨0, 3⟩, (g1 a b)),
     (⟨0, 4⟩, (g2 a b)),
     (⟨0, 5⟩, (g3 a b)),
     (⟨0, 6⟩, (g2 a b)),
     (⟨0, 7⟩, (g3 a b)),
     (⟨0, 8⟩, (g4 a b)),
     (⟨0, 9⟩, (g3 a b)),
     (⟨0, 10⟩, (g4 a b)),
     (⟨0, 11⟩, (g5 a b)),
     (⟨0, 12⟩, (g4 a b)),
     (⟨0, 13⟩, (g5 a b)),
     (⟨0, 14⟩, (g6 a b)),
     (⟨0, 15⟩, (g5 a b)),
     (⟨0, 16⟩, (g6 a b)),
     (⟨0, 17⟩, (g7 a b))]
  selectors := [(0, 0), (0, 3), (0, 6), (0, 9), (0, 12), (0, 15)]
  copies :=
    [(⟨0, 1⟩, ⟨0, 3⟩),
     (⟨0, 2⟩, ⟨0, 4⟩),
     (⟨0, 4⟩, ⟨0, 6⟩),
     (⟨0, 5⟩, ⟨0, 7⟩),
     (⟨0, 7⟩, ⟨0, 9⟩),
     (⟨0, 8⟩, ⟨0, 10⟩),
     (⟨0, 10⟩, ⟨0, 12⟩),
     (⟨0, 11⟩, ⟨0, 13⟩),
     (⟨0, 13⟩, ⟨0, 15⟩),
     (⟨0, 14⟩, ⟨0, 16⟩)]
  instanceBindings := []
  regions := [(0, 3), (3, 3), (6, 3), (9, 3), (12, 3), (15, 3)]
  nextRow := 18

/-- The narrow circuit's synthesis state after 7 regions. -/
def narrowAfter7 {F : Type} [Add F] (a b : Value F) : SynthState F where
  assignments :=
    [(⟨0, 0⟩, (g0 a b)),
     (⟨0, 1⟩, (g1 a b)),
     (⟨0, 2⟩, (g2 a b)),
     (⟨0, 3⟩, (g1 a b)),
     (⟨0, 4⟩, (g2 a b)),
     (⟨0, 5⟩, (g3 a b)),
     (⟨0, 6⟩, (g2 a b)),
     (⟨0, 7⟩, (g3 a b)),
     (⟨0, 8⟩, (g4 a b)),
     (⟨0, 9⟩, (g3 a b)),
     (⟨0, 10⟩, (g4 a b)),
     (⟨0, 11⟩, (g5 a b)),
     (⟨0, 12⟩, (g4 a b)),
     (⟨0, 13⟩, (g5 a b)),
     (⟨0, 14⟩, (g6 a b)),
     (⟨0, 15⟩, (g5 a b)),
     (⟨0, 16⟩, (g6 a b)),
     (⟨0, 17⟩, (g7 a b)),
     (⟨0, 18⟩, (g6 a b)),
     (⟨0, 19⟩, (g7 a b)),
     (⟨0, 20⟩, (g8 a b))]
  selectors := [(0, 0), (0, 3), (0, 6), (0, 9), (0, 12), (0, 15), (0, 18)]
  copies :=
    [(⟨0, 1⟩, ⟨0, 3⟩),
     (⟨0, 2⟩, ⟨0, 4⟩),
     (⟨0, 4⟩, ⟨0, 6⟩),
     (⟨0, 5⟩, ⟨0, 7⟩),
     (⟨0, 7⟩, ⟨0, 9⟩),
     (⟨0, 8⟩, ⟨0, 10⟩),
     (⟨0, 10⟩, ⟨0, 12⟩),
     (⟨0, 11⟩, ⟨0, 13⟩),
     (⟨0, 13⟩, ⟨0, 15⟩),
     (⟨0, 14⟩, ⟨0, 16⟩),
     (⟨0, 16⟩, ⟨0, 18⟩),
     (⟨0, 17⟩, ⟨0, 19⟩)]
  instanceBindings := []
  regions := [(0, 3), (3, 3), (6, 3), (9, 3), (12, 3), (15, 3), (18, 3)]
  nextRow := 21

/-- The narrow circuit's synthesis state after 8 regions. -/
def narrowAfter8 {F : Type} [Add F] (a b : Value F) : SynthState F where
  assignments :=
    [(⟨0, 0⟩, (g0 a b)),
     (⟨0, 1⟩, (g1 a b)),
     (⟨0, 2⟩, (g2 a b)),
     (⟨0, 3⟩, (g1 a b)),
     (⟨0, 4⟩, (g2 a b)),
     (⟨0, 5⟩, (g3 a b)),
     (⟨0, 6⟩, (g2 a b)),
     (⟨0, 7⟩, (g3 a b)),
     (⟨0, 8⟩, (g4 a b)),
     (⟨0, 9⟩, (g3 a b)),
     (⟨0, 10⟩, (g4 a b)),
     (⟨0, 11⟩, (g5 a b)),
     (⟨0, 12⟩, (g4 a b)),
     (⟨0, 13⟩, (g5 a b)),
     (⟨0, 14⟩, (g6 a b)),
     (⟨0, 15⟩, (g5 a b)),
     (⟨0, 16⟩, (g6 a b)),
     (⟨0, 17⟩, (g7 a b)),
     (⟨0, 18⟩, (g6 a b)),
     (⟨0, 19⟩, (g7 a b)),
     (⟨0, 20⟩, (g8 a b)),
     (⟨0, 21⟩, (g7 a b)),
     (⟨0, 22⟩, (g8 a b)),
     (⟨0, 23⟩, (g9 a b))]
  selectors := [(0, 0), (0, 3), (0, 6), (0, 9), (0, 12), (0, 15), (0, 18), (0, 21)]
  copies :=
    [(⟨0, 1⟩, ⟨0, 3⟩),
     (⟨0, 2⟩, ⟨0, 4⟩),
     (⟨0, 4⟩, ⟨0, 6⟩),
     (⟨0, 5⟩, ⟨0, 7⟩),
     (⟨0, 7⟩, ⟨0, 9⟩),
     (⟨0, 8⟩, ⟨0, 10⟩),
     (⟨0, 10⟩, ⟨0, 12⟩),
     (⟨0, 11⟩, ⟨0, 13⟩),
     (⟨0, 13⟩, ⟨0, 15⟩),
     (⟨0, 14⟩, ⟨0, 16⟩),
     (⟨0, 16⟩, ⟨0, 18⟩),
     (⟨0, 17⟩, ⟨0, 19⟩),
     (⟨0, 19⟩, ⟨0, 21⟩),
     (⟨0, 20⟩, ⟨0, 22⟩)]
  instanceBindings := []
  regions := [(0, 3), (3, 3), (6, 3), (9, 3), (12, 3), (15, 3), (18, 3), (21, 3)]
  nextRow := 24

/-- The complete synthesized state of the wide circuit (example1): row i
of the three advice columns holds the Fibonacci terms (gᵢ, gᵢ₊₁, gᵢ₊₂),
the selector is enabled at rows 0–7, each row after the first copies the
previous row's b and c cells into its a and b cells, and the final c cell
is bound to instance index 0. -/
def wideState {F : Type} [Add F] (a b : Value F) : SynthState F :=
  exposePublicCell (wideAfter8 a b) ⟨2, 7⟩ 0

/-- The complete synthesized state of the narrow circuit (example2):
region k (k = 0..7) occupies rows 3k, 3k+1, 3k+2 of the single advice
column and holds (gₖ, gₖ₊₁, gₖ₊₂), the selector is enabled at the first
row of each region, each region after the first copies the previous
region's middle and last cells into its first two rows, and the final
cell is bound to instance index 0. -/
def narrowState {F : Type} [Add F] (a b : Value F) : SynthState F :=
  exposePublicCell (narrowAfter8 a b) ⟨0, 23⟩ 0

theorem bind_ok {e a b : Type} (x : a) (f : a → Except e b) :
    (Except.ok x : Except e a) >>= f = f x := rfl

theorem synthLoop_step {F : Type}
    {step : Cell → Cell → SynthState F →
      Except SynthError (SynthState F × Cell × Cell)}
    {n : Nat} {prevB prevC : Cell} {st st' : SynthState F} {b c : Cell}
    (h : step prevB prevC st = .ok (st', b, c)) :
    synthLoop step (n + 1) prevB prevC st = synthLoop step n b c st' := by
  simp [synthLoop, h, bind_ok]

theorem synthLoop_zero {F : Type}
    {step : Cell → Cell → SynthState F →
      Except SynthError (SynthState F × Cell × Cell)}
    {prevB prevC : Cell} {st : SynthState F} :
    synthLoop step 0 prevB prevC st = .ok (st, prevB, prevC) := rfl

theorem wideFirst {F : Type} [Add F] (a b : Value F) :
    assignFirstRow1 a b (initState F) =
      .ok (wideAfter1 a b, ⟨0, 0⟩, ⟨1, 0⟩, ⟨2, 0⟩) := rfl

theorem narrowFirst {F : Type} [Add F] (a b : Value F) :
    assignFirstRow2 a b (initState F) =
      .ok (narrowAfter1 a b, ⟨0, 0⟩, ⟨0, 1⟩, ⟨0, 2⟩) := rfl

theorem wideStep1 {F : Type} [Add F] (a b : Value F) :
    assignRow1 ⟨1, 0⟩ ⟨2, 0⟩ (wideAfter1 a b) =
      .ok (wideAfter2 a b, ⟨1, 1⟩, ⟨2, 1⟩) := rfl

theorem wideStep2 {F : Type} [Add F] (a b : Value F) :
    assignRow1 ⟨1, 1⟩ ⟨2, 1⟩ (wideAfter2 a b) =
      .ok (wideAfter3 a b, ⟨1, 2⟩, ⟨2, 2⟩) := rfl

theorem wideStep3 {F : Type} [Add F] (a b : Value F) :
    assignRow1 ⟨1, 2⟩ ⟨2, 2⟩ (wideAfter3 a b) =
      .ok (wideAfter4 a b, ⟨1, 3⟩, ⟨2, 3⟩) := rfl

theorem wideStep4 {F : Type} [Add F] (a b : Value F) :
    assignRow1 ⟨1, 3⟩ ⟨2, 3⟩ (wideAfter4 a b) =
      .ok (wideAfter5 a b, ⟨1, 4⟩, ⟨2, 4⟩) := rfl

theorem wideStep5 {F : Type} [Add F] (a b : Value F) :
    assignRow1 ⟨1, 4⟩ ⟨2, 4⟩ (wideAfter5 a b) =
      .ok (wideAfter6 a b, ⟨1, 5⟩, ⟨2, 5⟩) := rfl

theorem wideStep6 {F : Type} [Add F] (a b : Value F) :
    assignRow1 ⟨1, 5⟩ ⟨2, 5⟩ (wideAfter6 a b) =
      .ok (wideAfter7 a b, ⟨1, 6⟩, ⟨2, 6⟩) := rfl

theorem wideStep7 {F : Type} [Add F] (a b : Value F) :
    assignRow1 ⟨1, 6⟩ ⟨2, 6⟩ (wideAfter7 a b) =
      .ok (wideAfter8 a b, ⟨1, 7⟩, ⟨2, 7⟩) := rfl

theorem narrowStep1 {F : Type} [Add F] (a b : Value F) :
    assignRow2 ⟨0, 1⟩ ⟨0, 2⟩ (narrowAfter1 a b) =
      .ok (narrowAfter2 a b, ⟨0, 4⟩, ⟨0, 5⟩) := rfl

theorem narrowStep2 {F : Type} [Add F] (a b : Value F) :
    assignRow2 ⟨0, 4⟩ ⟨0, 5⟩ (narrowAfter2 a b) =
      .ok (narrowAfter3 a b, ⟨0, 7⟩, ⟨0, 8⟩) := rfl

theorem narrowStep3 {F : Type} [Add F] (a b : Value F) :
    assignRow2 ⟨0, 7⟩ ⟨0, 8⟩ (narrowAfter3 a b) =
      .ok (narrowAfter4 a b, ⟨0, 10⟩, ⟨0, 11⟩) := rfl

theorem narrowStep4 {F : Type} [Add F] (a b : Value F) :
    assignRow2 ⟨0, 10⟩ ⟨0, 11⟩ (narrowAfter4 a b) =
      .ok (narrowAfter5 a b, ⟨0, 13⟩, ⟨0, 14⟩) := rfl

theorem narrowStep5 {F : Type} [Add F] (a b : Value F) :
    assignRow2 ⟨0, 13⟩ ⟨0, 14⟩ (narrowAfter5 a b) =
      .ok (narrowAfter6 a b, ⟨0, 16⟩, ⟨0, 17⟩) := rfl

theorem narrowStep6 {F : Type} [Add F] (a b : Value F) :
    assignRow2 ⟨0, 16⟩ ⟨0, 17⟩ (narrowAfter6 a b) =
      .ok (narrowAfter7 a b, ⟨0, 19⟩, ⟨0, 20⟩) := rfl

theorem narrowStep7 {F : Type} [Add F] (a b : Value F) :
    assignRow2 ⟨0, 19⟩ ⟨0, 20⟩ (narrowAfter7 a b) =
      .ok (narrowAfter8 a b, ⟨0, 22⟩, ⟨0, 23⟩) := rfl

/-- example1's synthesis succeeds on every pair of seed witnesses and
produces exactly the explicit wide state. -/
theorem synthesize1_state {F : Type} [Add F] (a b : Value F) :
    synthesize1 a b = .ok (wideState a b) := by
  unfold synthesize1
  rw [wideFirst]
  simp only [bind_ok]
  rw [synthLoop_step (wideStep1 a b), synthLoop_step (wideStep2 a b),
    synthLoop_step (wideStep3 a b), synthLoop_step (wideStep4 a b),
    synthLoop_step (wideStep5 a b), synthLoop_step (wideStep6 a b),
    synthLoop_step (wideStep7 a b), synthLoop_zero]
  simp only [bind_ok]
  rfl

/-- example2's synthesis succeeds on every pair of seed witnesses and
produces exactly the explicit narrow state. -/
theorem synthesize2_state {F : Type} [Add F] (a b : Value F) :
    synthesize2 a b = .ok (narrowState a b) := by
  unfold synthesize2
  rw [narrowFirst]
  simp only [bind_ok]
  rw [synthLoop_step (narrowStep1 a b), synthLoop_step (narrowStep2 a b),
    synthLoop_step (narrowStep3 a b), synthLoop_step (narrowStep4 a b),
    synthLoop_step (narrowStep5 a b), synthLoop_step (narrowStep6 a b),
    synthLoop_step (narrowStep7 a b), synthLoop_zero]
  simp only [bind_ok]
  rfl


/-- The outcome of checking the single instance binding of either layout:
the list of violations it contributes given the bound cell's value and
the public-input sequence. -/
def instCheckList {F : Type} [DecidableEq F] (v : F) (pub : List F) :
    List Violation :=
  match pub[0]? with
  | none => [.InstanceIndexOutOfRange 0]
  | some x => if v = x then [] else [.InstanceMismatch 0]

/-- The checker verdict determined by the single instance binding alone
(both layouts have no gate or copy violations on known seeds, so the
verdict is a function of the exposed value and the public input). -/
def instVerdict {F : Type} [DecidableEq F] (v : F) (pub : List F) :
    MockResult :=
  match pub[0]? with
  | none => .Violated [.InstanceIndexOutOfRange 0]
  | some x => if v = x then .Satisfied else .Violated [.InstanceMismatch 0]

theorem wide_gates_ok {F : Type} [CommRing F] [DecidableEq F] (a b : F) :
    gateViolations [gate1] (wideState (Value.known a) (Value.known b)) =
      [] := by
  simp [gateViolations, checkRow, gate1, Expr.eval, wideState,
    exposePublicCell, wideAfter8, selOnOf, SynthState.valueAt, Value.add,
    Value.sub, Value.mul, g0, g1, g2, g3, g4, g5, g6, g7, g8, g9]

theorem narrow_gates_ok {F : Type} [CommRing F] [DecidableEq F] (a b : F) :
    gateViolations [gate2] (narrowState (Value.known a) (Value.known b)) =
      [] := by
  simp [gateViolations, checkRow, gate2, Expr.eval, narrowState,
    exposePublicCell, narrowAfter8, selOnOf, SynthState.valueAt, Value.add,
    Value.sub, Value.mul, g0, g1, g2, g3, g4, g5, g6, g7, g8, g9]

theorem wide_copies_ok {F : Type} [CommRing F] [DecidableEq F] (a b : F) :
    copyViolations (wideState (Value.known a) (Value.known b)) = [] := by
  simp [copyViolations, wideState, exposePublicCell, wideAfter8,
    SynthState.valueAt, Value.add, g0, g1, g2, g3, g4, g5, g6, g7, g8, g9]

theorem narrow_copies_ok {F : Type} [CommRing F] [DecidableEq F] (a b : F) :
    copyViolations (narrowState (Value.known a) (Value.known b)) = [] := by
  simp [copyViolations, narrowState, exposePublicCell, narrowAfter8,
    SynthState.valueAt, Value.add, g0, g1, g2, g3, g4, g5, g6, g7, g8, g9]

theorem instanceViolations_single {F : Type} [DecidableEq F]
    (st : SynthState F) (c : Cell) (v : F) (pub : List F)
    (hb : st.instanceBindings = [(c, 0)])
    (hv : st.valueAt c = .known v) :
    instanceViolations st pub = instCheckList v pub := by
  unfold instanceViolations instCheckList
  rw [hb]
  cases hp : pub[0]? with
  | none => simp [List.filterMap, hp]
  | some x =>
    by_cases hx : v = x
    · simp [List.filterMap, hp, hv, hx]
    · simp [List.filterMap, hp, hv, hx]

theorem wide_instance_check {F : Type} [CommRing F] [DecidableEq F]
    (a b : F) (pub : List F) :
    instanceViolations (wideState (Value.known a) (Value.known b)) pub =
      instCheckList (f9 a b) pub :=
  instanceViolations_single _ ⟨2, 7⟩ (f9 a b) pub rfl rfl

theorem narrow_instance_check {F : Type} [CommRing F] [DecidableEq F]
    (a b : F) (pub : List F) :
    instanceViolations (narrowState (Value.known a) (Value.known b)) pub =
      instCheckList (f9 a b) pub :=
  instanceViolations_single _ ⟨0, 23⟩ (f9 a b) pub rfl rfl

theorem checkList_to_verdict {F : Type} [DecidableEq F] (v : F)
    (pub : List F) :
    (if instCheckList v pub = ([] : List Violation) then MockResult.Satisfied
      else MockResult.Violated (instCheckList v pub)) = instVerdict v pub := by
  cases hp : pub[0]? with
  | none => simp [instCheckList, instVerdict, hp]
  | some x =>
    by_cases hv : v = x
    · simp [instCheckList, instVerdict, hp, hv]
    · simp [instCheckList, instVerdict, hp, hv]

theorem mockRun_ok {F : Type} [Add F] [Sub F] [Mul F] [Zero F] [One F]
    [DecidableEq F] (gates : List Gate) (st : SynthState F) (k : Nat)
    (pub : List F) :
    mockRun gates (.ok st) k pub =
      if st.nextRow ≤ 2 ^ k then runChecker gates st pub
      else .RowDomainTooSmall := rfl

theorem mockRun1_eval {F : Type} [CommRing F] [DecidableEq F] (a b : F)
    (pub : List F) :
    mockRun1 (Value.known a) (Value.known b) pub =
      instVerdict (f9 a b) pub := by
  have h8 : (wideState (Value.known a) (Value.known b) :
      SynthState F).nextRow = 8 := rfl
  rw [mockRun1, synthesize1_state, mockRun_ok]
  rw [h8, if_pos (by norm_num : (8 : Nat) ≤ 2 ^ 4)]
  rw [runChecker]
  simp only [wide_gates_ok a b, wide_copies_ok a b,
    wide_instance_check a b pub, List.nil_append]
  exact checkList_to_verdict (f9 a b) pub

theorem mockRun2_eval {F : Type} [CommRing F] [DecidableEq F] (a b : F)
    (pub : List F) :
    mockRun2 (Value.known a) (Value.known b) pub =
      instVerdict (f9 a b) pub := by
  have h24 : (narrowState (Value.known a) (Value.known b) :
      SynthState F).nextRow = 24 := rfl
  rw [mockRun2, synthesize2_state, mockRun_ok]
  rw [h24, if_pos (by norm_num : (24 : Nat) ≤ 2 ^ 5)]
  rw [runChecker]
  simp only [narrow_gates_ok a b, narrow_copies_ok a b,
    narrow_instance_check a b pub, List.nil_append]
  exact checkList_to_verdict (f9 a b) pub

/-- C1: For seed witnesses a = 1, b = 1 and the program's row count of
10, under either layout variant (example1's wide circuit and example2's
narrow circuit), the cell exposed as public output holds the field
encoding of the 10th Fibonacci term (55), and running the satisfiability
checker against the public-input vector [55] yields Satisfied. -/
theorem C1_main_satisfied :
    mockRun1 (Value.known (1 : Fp)) (Value.known 1) [55] =
      MockResult.Satisfied ∧
    mockRun2 (Value.known (1 : Fp)) (Value.known 1) [55] =
      MockResult.Satisfied ∧
    exposedValue (synthStateOf
      (synthesize1 (Value.known (1 : Fp)) (Value.known 1))) =
      Value.known 55 ∧
    exposedValue (synthStateOf
      (synthesize2 (Value.known (1 : Fp)) (Value.known 1))) =
      Value.known 55 := by
  decide

/-- C5: With seeds a = 1, b = 1 and the same row count, running the
checker against the public-input vector [54] yields a Violated result
containing exactly one instance-mismatch violation at public index 0 and
no gate violations, in both layouts. -/
theorem C5_mismatch_single_violation :
    mockRun1 (Value.known (1 : Fp)) (Value.known 1) [54] =
      MockResult.Violated [.InstanceMismatch 0] ∧
    mockRun2 (Value.known (1 : Fp)) (Value.known 1) [54] =
      MockResult.Violated [.InstanceMismatch 0] := by
  decide

/-- C2: For every pair of seed witness values a, b, the wide layout
circuit (example1) and the narrow layout circuit (example2) produce
identical satisfiability verdicts from the checker on every public-input
vector, and identical exposed public values (both synthesize functions
compute the same final recurrence term and bind it to instance
index 0). -/
theorem C2_layout_equivalence {F : Type} [CommRing F] [DecidableEq F]
    (a b : F) (pub : List F) :
    mockRun1 (Value.known a) (Value.known b) pub =
      mockRun2 (Value.known a) (Value.known b) pub ∧
    exposedValue (synthStateOf (synthesize1 (Value.known a)
      (Value.known b))) =
      exposedValue (synthStateOf (synthesize2 (Value.known a)
        (Value.known b))) := by
  refine ⟨(mockRun1_eval a b pub).trans (mockRun2_eval a b pub).symm, ?_⟩
  rw [synthesize1_state, synthesize2_state]
  rfl

theorem C2_layout_equivalence_witness :
    mockRun1 (Value.known (2 : Fp)) (Value.known 3) [10] =
      mockRun2 (Value.known (2 : Fp)) (Value.known 3) [10] ∧
    exposedValue (synthStateOf (synthesize1 (Value.known (2 : Fp))
      (Value.known 3))) =
      exposedValue (synthStateOf (synthesize2 (Value.known (2 : Fp))
        (Value.known 3))) :=
  C2_layout_equivalence 2 3 [10]

/-- C7: During synthesis, assigning a value to an absolute cell that was
already written always fails with a CellAlreadyAssigned error, regardless
of whether the second write agrees in value with the first; re-assignment
is never a silent overwrite. -/
theorem C7_no_silent_overwrite {F : Type} (st : SynthState F) (c : Cell)
    (v1 v2 : Value F) (st' : SynthState F)
    (h : assignAdvice st c v1 = .ok st') :
    assignAdvice st' c v2 = .error .cellAlreadyAssigned := by
  unfold assignAdvice at h ⊢
  by_cases hc : st.assignments.any (fun p => decide (p.1 = c)) = true
  · rw [if_pos hc] at h
    exact absurd h (by simp)
  · rw [if_neg hc] at h
    cases h
    simp [List.any_append]

theorem C7_no_silent_overwrite_witness :
    assignAdvice
      (⟨[(⟨0, 0⟩, Value.known (1 : Fp))], [], [], [], [], 0⟩ :
        SynthState Fp) ⟨0, 0⟩ (Value.known 2) =
      .error .cellAlreadyAssigned :=
  C7_no_silent_overwrite (initState Fp) ⟨0, 0⟩ (Value.known 1)
    (Value.known 2) _ rfl

/-- C10: The assignment structure produced by synthesize — which cells
are assigned, which rows have the selector enabled, which copy
constraints, instance bindings and regions are recorded — is identical
for any two witness inputs, including the all-unknown witnesses produced
by without_witnesses; only the stored cell values differ. -/
theorem C10_structure_independent_of_witnesses {F : Type} [Add F]
    (c c' : FiboCircuit F) :
    (synthesize1 c.a c.b).map SynthState.shape =
      (synthesize1 c'.a c'.b).map SynthState.shape ∧
    (synthesize2 c.a c.b).map SynthState.shape =
      (synthesize2 c'.a c'.b).map SynthState.shape ∧
    (synthesize1 c.a c.b).map SynthState.shape =
      (synthesize1 c.withoutWitnesses.a c.withoutWitnesses.b).map
        SynthState.shape ∧
    (synthesize2 c.a c.b).map SynthState.shape =
      (synthesize2 c.withoutWitnesses.a c.withoutWitnesses.b).map
        SynthState.shape := by
  refine ⟨?_, ?_, ?_, ?_⟩
  · rw [synthesize1_state c.a c.b, synthesize1_state c'.a c'.b]
    rfl
  · rw [synthesize2_state c.a c.b, synthesize2_state c'.a c'.b]
    rfl
  · rw [synthesize1_state c.a c.b,
      synthesize1_state c.withoutWitnesses.a c.withoutWitnesses.b]
    rfl
  · rw [synthesize2_state c.a c.b,
      synthesize2_state c.withoutWitnesses.a c.withoutWitnesses.b]
    rfl

theorem C10_structure_witness :
    (synthesize1 (Value.known (1 : Fp)) (Value.known 1)).map
      SynthState.shape =
      (synthesize1 (Value.unknown : Value Fp) Value.unknown).map
        SynthState.shape :=
  (C10_structure_independent_of_witnesses
    ⟨Value.known (1 : Fp), Value.known 1⟩
    ⟨Value.unknown, Value.unknown⟩).1

/-- C4 counterexample: the row count is not an instantiation input — the
circuit structure is the same fixed 8-step shape for every seed pair; in
particular the assignment never covers any step count other than 8
(10 Fibonacci terms), refuting the claim that instantiating with a row
count n yields n logical steps. -/
theorem C4_counterexample :
    (synthStateOf (synthesize1 (Value.known (2 : Fp))
      (Value.known 7))).shape =
      (synthStateOf (synthesize1 (Value.known (1 : Fp))
        (Value.known 1))).shape ∧
    (synthStateOf (synthesize1 (Value.known (1 : Fp))
      (Value.known 1))).selectors.length = 8 ∧
    (synthStateOf (synthesize2 (Value.known (1 : Fp))
      (Value.known 1))).selectors.length = 8 ∧
    (synthStateOf (synthesize1 (Value.known (1 : Fp))
      (Value.known 1))).regions.length = 8 := by
  simp only [synthesize1_state, synthesize2_state]
  exact ⟨rfl, rfl, rfl, rfl⟩

/-- C4 (amended): the circuit instantiation input consists of the two
seed values only; the row count 10 is hard-coded in synthesize (the
`for _ in 3..10` loop), so every instantiation produces an assignment
with exactly 8 selector-enabled step regions in both layouts. -/
theorem C4_rowcount_hardcoded {F : Type} [Add F] (a b : Value F) :
    (synthStateOf (synthesize1 a b)).selectors.length = 8 ∧
    (synthStateOf (synthesize1 a b)).regions.length = 8 ∧
    (synthStateOf (synthesize2 a b)).selectors.length = 8 ∧
    (synthStateOf (synthesize2 a b)).regions.length = 8 := by
  rw [synthesize1_state, synthesize2_state]
  exact ⟨rfl, rfl, rfl, rfl⟩

theorem C4_rowcount_hardcoded_witness :
    (synthStateOf (synthesize1 (Value.unknown : Value Fp)
      Value.unknown)).selectors.length = 8 ∧
    (synthStateOf (synthesize1 (Value.unknown : Value Fp)
      Value.unknown)).regions.length = 8 ∧
    (synthStateOf (synthesize2 (Value.unknown : Value Fp)
      Value.unknown)).selectors.length = 8 ∧
    (synthStateOf (synthesize2 (Value.unknown : Value Fp)
      Value.unknown)).regions.length = 8 :=
  C4_rowcount_hardcoded Value.unknown Value.unknown


theorem gateViolations_single {F : Type} [CommRing F] [DecidableEq F]
    (g : Gate) (st : SynthState F) :
    gateViolations [g] st =
      ((st.selectors.filter (fun p => decide (p.1 = g.sel))).map
        Prod.snd).filterMap (checkRow st 0 g) := by
  simp [gateViolations]

theorem cns_active {F : Type} [CommRing F] [DecidableEq F]
    (g : Gate) (st : SynthState F) (r i : Nat)
    (h : Violation.ConstraintNotSatisfied r i ∈ gateViolations [g] st) :
    (g.sel, r) ∈ st.selectors := by
  rw [gateViolations_single] at h
  rw [List.mem_filterMap] at h
  obtain ⟨r', hr', hc⟩ := h
  rw [List.mem_map] at hr'
  obtain ⟨p, hp, rfl⟩ := hr'
  rw [List.mem_filter] at hp
  obtain ⟨hmem, hsel⟩ := hp
  have h1 : p.1 = g.sel := by simpa using hsel
  have h2 : p.2 = r := by
    unfold checkRow at hc
    rcases hev : g.expr.eval st.valueAt (selOnOf st) p.2 with _ | v
    · rw [hev] at hc
      simp at hc
    · rw [hev] at hc
      by_cases hz : v = 0
      · simp [hz] at hc
      · simp [hz] at hc
        exact hc.1
  rw [← h1, ← h2]
  simpa using hmem

/-- C8: at every row where the fibonacci gate's selector is disabled (the
default state of every row), the gate expression s·(a + b − c) evaluates
to the field's zero regardless of the advice values at that row, and the
checker reports no ConstraintNotSatisfied at that row, for both layouts'
gates. -/
theorem C8_disabled_selector_gates_vanish {F : Type} [CommRing F]
    [DecidableEq F] (st : SynthState F) (tbl : Cell → F) (r : Nat)
    (h : (0, r) ∉ st.selectors) :
    gate1.expr.evalF tbl (selOnOf st) r = 0 ∧
    gate2.expr.evalF tbl (selOnOf st) r = 0 ∧
    (∀ i, Violation.ConstraintNotSatisfied r i ∉
      gateViolations [gate1] st) ∧
    (∀ i, Violation.ConstraintNotSatisfied r i ∉
      gateViolations [gate2] st) := by
  have hs : selOnOf st 0 r = false := by simp [selOnOf, h]
  refine ⟨?_, ?_, ?_, ?_⟩
  · simp [gate1, Expr.evalF, hs]
  · simp [gate2, Expr.evalF, hs]
  · intro i hmem
    exact h (cns_active gate1 st r i hmem)
  · intro i hmem
    exact h (cns_active gate2 st r i hmem)

theorem C8_disabled_selector_witness :
    gate1.expr.evalF (fun _ => (3 : Fp)) (selOnOf (initState Fp)) 5 =
      0 :=
  (C8_disabled_selector_gates_vanish (initState Fp) (fun _ => (3 : Fp)) 5
    (by decide)).1

/-- C9: every row at which synthesis enables the selector satisfies the
gate by construction when the seed witnesses are known: in both layouts,
the gate expression evaluates to the known field zero at every
selector-enabled row of the synthesized assignment, for all seeds. -/
theorem C9_active_rows_satisfied {F : Type} [CommRing F] [DecidableEq F]
    (a b : F) (r : Nat) :
    ((0, r) ∈ (synthStateOf (synthesize1 (Value.known a)
        (Value.known b))).selectors →
      gate1.expr.eval
        (synthStateOf (synthesize1 (Value.known a)
          (Value.known b))).valueAt
        (selOnOf (synthStateOf (synthesize1 (Value.known a)
          (Value.known b)))) r = Value.known 0) ∧
    ((0, r) ∈ (synthStateOf (synthesize2 (Value.known a)
        (Value.known b))).selectors →
      gate2.expr.eval
        (synthStateOf (synthesize2 (Value.known a)
          (Value.known b))).valueAt
        (selOnOf (synthStateOf (synthesize2 (Value.known a)
          (Value.known b)))) r = Value.known 0) := by
  simp only [synthesize1_state, synthesize2_state, synthStateOf]
  constructor
  · intro h
    have hr : r = 0 ∨ r = 1 ∨ r = 2 ∨ r = 3 ∨ r = 4 ∨ r = 5 ∨ r = 6 ∨
        r = 7 := by
      simpa [wideState, exposePublicCell, wideAfter8] using h
    rcases hr with rfl | rfl | rfl | rfl | rfl | rfl | rfl | rfl <;>
      simp [gate1, Expr.eval, wideState, exposePublicCell, wideAfter8,
        SynthState.valueAt, selOnOf, Value.add, Value.sub, Value.mul,
        g0, g1, g2, g3, g4, g5, g6, g7, g8, g9]
  · intro h
    have hr : r = 0 ∨ r = 3 ∨ r = 6 ∨ r = 9 ∨ r = 12 ∨ r = 15 ∨
        r = 18 ∨ r = 21 := by
      simpa [narrowState, exposePublicCell, narrowAfter8] using h
    rcases hr with rfl | rfl | rfl | rfl | rfl | rfl | rfl | rfl <;>
      simp [gate2, Expr.eval, narrowState, exposePublicCell, narrowAfter8,
        SynthState.valueAt, selOnOf, Value.add, Value.sub, Value.mul,
        g0, g1, g2, g3, g4, g5, g6, g7, g8, g9]

theorem C9_active_rows_witness :
    gate1.expr.eval
      (synthStateOf (synthesize1 (Value.known (1 : Fp))
        (Value.known 1))).valueAt
      (selOnOf (synthStateOf (synthesize1 (Value.known (1 : Fp))
        (Value.known 1)))) 0 = Value.known 0 :=
  (C9_active_rows_satisfied 1 1 0).1 (by decide)

/-- C6: in the wide layout, each logical step occupies one row of three
advice columns constrained by the single gate s·(a + b − c) = 0 with all
three columns queried at rotation 0 (the gate's value at a row depends
only on that row's three advice cells and selector, and equals
s·(a + b − c) there), and every row after the first is built by
copy-assigning the previous row's b and c cells into the new row's a and
b cells, each copy recording a copy constraint between source and
destination whose two cells hold the same value. -/
theorem C6_wide_layout_structure {F : Type} [CommRing F] [DecidableEq F]
    (a b : Value F) :
    (synthStateOf (synthesize1 a b)).assignments.map Prod.fst =
      [⟨0, 0⟩, ⟨1, 0⟩, ⟨2, 0⟩, ⟨0, 1⟩, ⟨1, 1⟩, ⟨2, 1⟩,
       ⟨0, 2⟩, ⟨1, 2⟩, ⟨2, 2⟩, ⟨0, 3⟩, ⟨1, 3⟩, ⟨2, 3⟩,
       ⟨0, 4⟩, ⟨1, 4⟩, ⟨2, 4⟩, ⟨0, 5⟩, ⟨1, 5⟩, ⟨2, 5⟩,
       ⟨0, 6⟩, ⟨1, 6⟩, ⟨2, 6⟩, ⟨0, 7⟩, ⟨1, 7⟩, ⟨2, 7⟩] ∧
    (synthStateOf (synthesize1 a b)).selectors = [(0, 0), (0, 1), (0, 2), (0, 3), (0, 4), (0, 5), (0, 6), (0, 7)] ∧
    (synthStateOf (synthesize1 a b)).copies =
      [(⟨1, 0⟩, ⟨0, 1⟩), (⟨2, 0⟩, ⟨1, 1⟩),
       (⟨1, 1⟩, ⟨0, 2⟩), (⟨2, 1⟩, ⟨1, 2⟩),
       (⟨1, 2⟩, ⟨0, 3⟩), (⟨2, 2⟩, ⟨1, 3⟩),
       (⟨1, 3⟩, ⟨0, 4⟩), (⟨2, 3⟩, ⟨1, 4⟩),
       (⟨1, 4⟩, ⟨0, 5⟩), (⟨2, 4⟩, ⟨1, 5⟩),
       (⟨1, 5⟩, ⟨0, 6⟩), (⟨2, 5⟩, ⟨1, 6⟩),
       (⟨1, 6⟩, ⟨0, 7⟩), (⟨2, 6⟩, ⟨1, 7⟩)] ∧
    (∀ p ∈ (synthStateOf (synthesize1 a b)).copies,
      (synthStateOf (synthesize1 a b)).valueAt p.2 =
        (synthStateOf (synthesize1 a b)).valueAt p.1) ∧
    (∀ (t t' : Cell → Value F) (so so' : Nat → Nat → Bool) (r : Nat),
      t ⟨0, r⟩ = t' ⟨0, r⟩ → t ⟨1, r⟩ = t' ⟨1, r⟩ → t ⟨2, r⟩ = t' ⟨2, r⟩ →
      so 0 r = so' 0 r →
      gate1.expr.eval t so r = gate1.expr.eval t' so' r) ∧
    (∀ (t : Cell → Value F) (so : Nat → Nat → Bool) (r : Nat) (x y z : F),
      t ⟨0, r⟩ = Value.known x → t ⟨1, r⟩ = Value.known y →
      t ⟨2, r⟩ = Value.known z → so 0 r = true →
      gate1.expr.eval t so r = Value.known (1 * (x + y - z))) := by
  simp only [synthesize1_state]
  refine ⟨rfl, rfl, rfl, ?_, ?_, ?_⟩
  · intro p hp
    fin_cases hp <;> rfl
  · intro t t' so so' r h0 h1 h2 hs
    simp only [gate1, Expr.eval, Nat.add_zero, h0, h1, h2, hs]
  · intro t so r x y z h0 h1 h2 hs
    simp [gate1, Expr.eval, Nat.add_zero, h0, h1, h2, hs, Value.add,
      Value.sub, Value.mul]

theorem C6_wide_layout_witness :
    gate1.expr.eval (fun _ => Value.known (3 : Fp)) (fun _ _ => true) 5 =
      Value.known (1 * (3 + 3 - 3)) :=
  (C6_wide_layout_structure (Value.known (1 : Fp))
    (Value.known 1)).2.2.2.2.2
    (fun _ => Value.known (3 : Fp)) (fun _ _ => true) 5 3 3 3
    rfl rfl rfl rfl

/-- C3 counterexample: with seeds 1, 1, the narrow circuit's synthesis
produces 8 regions rather than one; the advice cell at row 1 is an
assigned sequence cell that is not among the final two rows (the rows
used are 0–23), yet the selector is not enabled there — refuting "one
region" and "selector enabled at every row except the final two". -/
theorem C3_counterexample :
    (synthStateOf (synthesize2 (Value.known (1 : Fp))
      (Value.known 1))).regions.length = 8 ∧
    (0, 1) ∉ (synthStateOf (synthesize2 (Value.known (1 : Fp))
      (Value.known 1))).selectors ∧
    (⟨0, 1⟩ : Cell) ∈ (synthStateOf (synthesize2 (Value.known (1 : Fp))
      (Value.known 1))).assignments.map Prod.fst ∧
    (synthStateOf (synthesize2 (Value.known (1 : Fp))
      (Value.known 1))).nextRow = 24 := by
  simp only [synthesize2_state]
  refine ⟨rfl, by decide, by decide, rfl⟩

/-- C3 (amended): the narrow layout uses a single advice column with the
gate querying rotations 0, 1, 2 of that column (the gate's value at row r
depends only on the cells at rows r, r+1, r+2 of column 0 and the
selector at r); each logical step occupies its own region of three
consecutive rows (8 regions of height 3 at bases 0, 3, ..., 21), with the
selector enabled only at the first row of each region, and consecutive
steps linked by copy constraints on the previous step's middle and last
cells. -/
theorem C3_narrow_layout_structure {F : Type} [CommRing F]
    [DecidableEq F] (a b : Value F) :
    (synthStateOf (synthesize2 a b)).regions = [(0, 3), (3, 3), (6, 3), (9, 3), (12, 3), (15, 3), (18, 3), (21, 3)] ∧
    (synthStateOf (synthesize2 a b)).selectors = [(0, 0), (0, 3), (0, 6), (0, 9), (0, 12), (0, 15), (0, 18), (0, 21)] ∧
    (synthStateOf (synthesize2 a b)).copies =
      [(⟨0, 1⟩, ⟨0, 3⟩), (⟨0, 2⟩, ⟨0, 4⟩),
       (⟨0, 4⟩, ⟨0, 6⟩), (⟨0, 5⟩, ⟨0, 7⟩),
       (⟨0, 7⟩, ⟨0, 9⟩), (⟨0, 8⟩, ⟨0, 10⟩),
       (⟨0, 10⟩, ⟨0, 12⟩), (⟨0, 11⟩, ⟨0, 13⟩),
       (⟨0, 13⟩, ⟨0, 15⟩), (⟨0, 14⟩, ⟨0, 16⟩),
       (⟨0, 16⟩, ⟨0, 18⟩), (⟨0, 17⟩, ⟨0, 19⟩),
       (⟨0, 19⟩, ⟨0, 21⟩), (⟨0, 20⟩, ⟨0, 22⟩)] ∧
    (∀ p ∈ (synthStateOf (synthesize2 a b)).copies,
      (synthStateOf (synthesize2 a b)).valueAt p.2 =
        (synthStateOf (synthesize2 a b)).valueAt p.1) ∧
    (∀ (t t' : Cell → Value F) (so so' : Nat → Nat → Bool) (r : Nat),
      t ⟨0, r⟩ = t' ⟨0, r⟩ → t ⟨0, r + 1⟩ = t' ⟨0, r + 1⟩ →
      t ⟨0, r + 2⟩ = t' ⟨0, r + 2⟩ → so 0 r = so' 0 r →
      gate2.expr.eval t so r = gate2.expr.eval t' so' r) := by
  simp only [synthesize2_state]
  refine ⟨rfl, rfl, rfl, ?_, ?_⟩
  · intro p hp
    fin_cases hp <;> rfl
  · intro t t' so so' r h0 h1 h2 hs
    simp only [gate2, Expr.eval, Nat.add_zero, h0, h1, h2, hs]

theorem C3_narrow_layout_witness :
    gate2.expr.eval (fun c => Value.known ((c.row : Fp)))
      (fun _ _ => false) 7 =
      gate2.expr.eval
        (fun c => if c.row ≤ 9 then Value.known ((c.row : Fp))
          else Value.unknown)
        (fun _ _ => false) 7 :=
  (C3_narrow_layout_structure (Value.known (1 : Fp))
    (Value.known 1)).2.2.2.2
    (fun c => Value.known ((c.row : Fp)))
    (fun c => if c.row ≤ 9 then Value.known ((c.row : Fp))
      else Value.unknown)
    (fun _ _ => false) (fun _ _ => false) 7 rfl rfl rfl rfl

end FiboHalo2

